import Mathlib

/-!
# Verification of gen-ads.py

Shallow embedding of the ad-image generator script. The script is a
straight-line sequence of drawing calls over an imaging library; the
embedding models a canvas as its dimensions, background color and the
list of drawing operations applied to it, models the filesystem as a
list of directories and files, and models the run as a trace of save
and print events. The text-measurement behavior of the imaging library
(the bounding box returned for a string in a font) and the availability
of the system font file are parameters of the model, since they are
environment facts the script merely consumes.
-/

namespace GenAds

/-- An RGB color triple, as used by the script palette. -/
abbrev RGB := Nat × Nat × Nat

/-- The hard-coded output directory (line 4 of the source). -/
def OUT : String := "/Users/frankgranato/Desktop/claude projects/PoolCue-v2/public/ads"

def BG : RGB := (10, 10, 10)

def GOLD : RGB := (245, 197, 24)

def DIM : RGB := (100, 100, 100)

def WHITE : RGB := (220, 220, 220)

def DARK_LINE : RGB := (30, 30, 30)

/-- A font value: either a truetype font loaded from a path at a size and
style index, or the built-in default font of the imaging library. -/
inductive Font where
  | truetype (path : String) (size : Nat) (index : Nat)
  | load_default
deriving DecidableEq

/-- The fixed system font path the script tries to load. -/
def helveticaPath : String := "/System/Library/Fonts/Helvetica.ttc"

/-- Environment fact consumed by the font loader: whether loading the
truetype file succeeds for a given size and style index. -/
structure Env where
  ttOk : Nat → Nat → Bool

/-- The font loader (lines 14-19): tries the system truetype font at the
requested size and style index (1 for bold, 0 otherwise) and falls back
to the built-in default font when the load fails. -/
def font (env : Env) (size : Nat) (bold : Bool) : Font :=
  let idx : Nat := if bold then 1 else 0
  if env.ttOk size idx then Font.truetype helveticaPath size idx
  else Font.load_default

/-- A text bounding box as returned by the library for a string anchored
at the origin: left, top, right, bottom. -/
structure BBox where
  left : Int
  top : Int
  right : Int
  bottom : Int
deriving DecidableEq

/-- Text-measurement semantics of the imaging library: the bounding box
the library reports for a string rendered in a font at the origin. -/
abbrev TextMeasure := Font → String → BBox

/-- A drawing operation recorded on a canvas. The text position keeps
the horizontal coordinate rational, because the script computes it with
true division. -/
inductive Op where
  | line (x0 y0 x1 y1 : Int) (fill : RGB) (width : Nat)
  | text (x : ℚ) (y : Int) (s : String) (fnt : Font) (fill : RGB)
deriving DecidableEq

/-- A canvas: mode, fixed dimensions, background color, and the drawing
operations applied so far, in order. -/
structure Canvas where
  mode : String
  width : Nat
  height : Nat
  bg : RGB
  ops : List Op
deriving DecidableEq

namespace Image

/-- Image.new: a fresh canvas of the given mode, size and background. -/
def new (mode : String) (size : Nat × Nat) (color : RGB) : Canvas :=
  { mode := mode, width := size.1, height := size.2, bg := color, ops := [] }

end Image

/-- The centered-text helper (lines 21-24): measures the text bounding
box, takes its width, and draws the text at horizontal position
(img_w - tw) / 2 (true division) and the given vertical offset. -/
def center_text (tm : TextMeasure) (draw : Canvas) (y : Int) (text : String)
    (fnt : Font) (fill : RGB) (img_w : Int) : Canvas :=
  let bbox := tm fnt text
  let tw := bbox.right - bbox.left
  { draw with ops := draw.ops ++ [Op.text (((img_w - tw : Int) : ℚ) / 2) y text fnt fill] }

/-- The horizontal rule helper (lines 26-27): a width-1 line from
(margin, y) to (w - margin, y) in the fixed dark color. -/
def draw_gold_line (draw : Canvas) (y : Int) (w : Int) (margin : Int) : Canvas :=
  { draw with ops := draw.ops ++ [Op.line margin y (w - margin) y DARK_LINE 1] }

/-- os.path.join for the occurring arguments (directory without a
trailing slash, relative file name). -/
def os_path_join (a b : String) : String := a ++ "/" ++ b

/-- Block 1 (lines 29-48): the 1080 x 90 game banner canvas. -/
def bannerImg (tm : TextMeasure) (env : Env) : Canvas :=
  let img := Image.new "RGB" (1080, 90) BG
  let d := draw_gold_line img 1 1080 40
  let f_main := font env 22 true
  let f_dim := font env 18 false
  let line := "YOUR AD HERE"
  let sub := "Advertise on our boards  ·  poolcue.io"
  let d := center_text tm d 20 line f_main GOLD 1080
  let d := center_text tm d 50 sub f_dim DIM 1080
  d

/-- Block 2 (lines 50-71): the 1080 x 240 idle canvas. -/
def idleImg (tm : TextMeasure) (env : Env) : Canvas :=
  let img := Image.new "RGB" (1080, 240) BG
  let d := draw_gold_line img 1 1080 100
  let d := draw_gold_line d 238 1080 100
  let f_head := font env 36 true
  let f_sub := font env 22 false
  let f_contact := font env 20 false
  let d := center_text tm d 45 "YOUR AD HERE" f_head GOLD 1080
  let d := center_text tm d 100 "Interested in advertising on our boards?" f_sub WHITE 1080
  let d := center_text tm d 145 "Reach out at  poolcue.io" f_contact DIM 1080
  let f_tiny := font env 13 false
  let d := center_text tm d 205 "POOL CUE" f_tiny (40, 40, 40) 1080
  d

/-- Block 3 (lines 73-90): the 1080 x 120 side canvas. -/
def sideImg (tm : TextMeasure) (env : Env) : Canvas :=
  let img := Image.new "RGB" (1080, 120) BG
  let d := draw_gold_line img 1 1080 60
  let d := draw_gold_line d 118 1080 60
  let f_side := font env 26 true
  let f_side_sub := font env 18 false
  let d := center_text tm d 25 "YOUR AD HERE" f_side GOLD 1080
  let d := center_text tm d 65 "Advertise on our boards  ·  poolcue.io" f_side_sub DIM 1080
  d

/-- The fixed file name of the banner image. -/
def bannerPath : String := os_path_join OUT "ad-banner-1080x90.png"

/-- The fixed file name of the idle image. -/
def idlePath : String := os_path_join OUT "ad-idle-1080x240.png"

/-- The fixed file name of the side image. -/
def sidePath : String := os_path_join OUT "ad-side-1080x120.png"

/-- An observable event of a run: saving an image under a file name, or
printing a string (one print call each) to standard output. -/
inductive Event where
  | save (name : String) (img : Canvas)
  | print (s : String)
deriving DecidableEq

/-- The filesystem state the script touches: existing directories and
files with their contents. -/
structure FS where
  dirs : List String
  files : List (String × Canvas)
deriving DecidableEq

/-- os.makedirs: creates the directory if absent; when it already exists
it fails unless exist_ok is set, in which case it is a no-op. -/
def makedirs (fs : FS) (path : String) (exist_ok : Bool) : Option FS :=
  if path ∈ fs.dirs then
    if exist_ok then some fs else none
  else
    some { fs with dirs := path :: fs.dirs }

/-- img.save: writes the file, replacing any previous file of that name. -/
def saveFile (fs : FS) (name : String) (img : Canvas) : FS :=
  { fs with files := (name, img) :: fs.files.filter (fun p => p.1 ≠ name) }

/-- Look up the current contents of a file. -/
def getFile (fs : FS) (name : String) : Option Canvas :=
  (fs.files.find? (fun p => p.1 = name)).map (fun p => p.2)

/-- The body of the script after the directory setup (lines 29-92):
generates and saves the three images in order, printing a confirmation
after each save and a final summary print. -/
def script (tm : TextMeasure) (env : Env) (fs : FS) : FS × List Event :=
  let img1 := bannerImg tm env
  let fs1 := saveFile fs bannerPath img1
  let img2 := idleImg tm env
  let fs2 := saveFile fs1 idlePath img2
  let img3 := sideImg tm env
  let fs3 := saveFile fs2 sidePath img3
  (fs3,
    [Event.save bannerPath img1, Event.print "✅ Banner 1080x90",
     Event.save idlePath img2, Event.print "✅ Idle 1080x240",
     Event.save sidePath img3, Event.print "✅ Side 1080x120",
     Event.print ("\nAll ads saved to " ++ OUT)])

/-- A whole run (lines 4-92): create the output directory with exist_ok
set, then run the script body. -/
def run (tm : TextMeasure) (env : Env) (fs : FS) : Option (FS × List Event) :=
  (makedirs fs OUT true).map (script tm env)

/-- The images saved during a trace, in order. -/
def savedImages (ev : List Event) : List (String × Canvas) :=
  ev.filterMap (fun e => match e with
    | Event.save n i => some (n, i)
    | _ => none)

/-- The strings printed during a trace, one entry per print call. -/
def printedStrings (ev : List Event) : List String :=
  ev.filterMap (fun e => match e with
    | Event.print s => some s
    | _ => none)

/-- The standard-output text of a trace: each print call emits its
string followed by a newline. -/
def stdoutText (ev : List Event) : String :=
  String.join ((printedStrings ev).map (fun s => s ++ "\n"))

/-- Split a character list at every newline character. -/
def splitOnNewline (cs : List Char) : List (List Char) :=
  cs.foldr (fun c acc =>
    if c = '\n' then [] :: acc
    else match acc with
      | [] => [[c]]
      | l :: ls => (c :: l) :: ls) [[]]

/-- The lines of a newline-terminated output text: the text split at
newline characters, without the empty fragment after the final
newline. -/
def outputLines (s : String) : List String :=
  ((splitOnNewline s.data).map (fun l => String.mk l)).dropLast

/-- The text-drawing operations of a canvas, in order. -/
def textOps (c : Canvas) : List Op :=
  c.ops.filter (fun op => match op with
    | Op.text _ _ _ _ _ => true
    | _ => false)

/-- The line-drawing operations of a canvas, in order. -/
def lineOps (c : Canvas) : List Op :=
  c.ops.filter (fun op => match op with
    | Op.line _ _ _ _ _ _ => true
    | _ => false)

/-- A text measure assigning every string an empty bounding box, used to
instantiate witnesses. -/
def tm0 : TextMeasure := fun _ _ => { left := 0, top := 0, right := 0, bottom := 0 }

/-- A text measure reporting every string as 2000 pixels wide, used for
the overflow witness. -/
def tmWide : TextMeasure := fun _ _ => { left := 0, top := 0, right := 2000, bottom := 0 }

/-- An environment in which every truetype load fails. -/
def envNone : Env := { ttOk := fun _ _ => false }

/-- An environment in which every truetype load succeeds. -/
def envAll : Env := { ttOk := fun _ _ => true }

/-- An empty filesystem. -/
def fs0 : FS := { dirs := [], files := [] }

/-- A filesystem in which the output directory already exists and a
stale banner file is present, for the idempotence witness. -/
def fsPre : FS :=
  { dirs := [OUT],
    files := [(bannerPath, Image.new "RGB" (1, 1) (0, 0, 0))] }

/-- An environment whose truetype loads succeed exactly for sizes up to
30, used for the determinism witness. -/
def envA : Env := { ttOk := fun s _ => decide (s ≤ 30) }

/-- An environment agreeing with envA on every size the script uses but
differing at size 100, used for the determinism witness. -/
def envB : Env := { ttOk := fun s _ => decide (s ≤ 30) || decide (s = 100) }

/-- The centering property of a single drawing operation: a text
operation sits at the horizontal offset obtained by centering its
measured width within the given surface width; other operations satisfy
it vacuously. -/
def centeredAt (tm : TextMeasure) (w : Int) : Op → Prop
  | Op.text x _ s fnt _ =>
      x = ((w - ((tm fnt s).right - (tm fnt s).left) : Int) : ℚ) / 2
  | _ => True

/-- C1: for every text-measurement semantics, font environment (preferred
or fallback font) and starting filesystem, the run saves exactly three
images, and their canvases have exactly the fixed dimensions: banner
1080 x 90, idle 1080 x 240, side 1080 x 120. -/
theorem image_dimensions_fixed (tm : TextMeasure) (env : Env) (fs : FS) :
    (savedImages (script tm env fs).2).map (fun p => (p.1, p.2.width, p.2.height)) =
      [(bannerPath, 1080, 90), (idlePath, 1080, 240), (sidePath, 1080, 120)] := rfl

/-- C2: for every text string, font and surface width, center_text draws
exactly one text operation, at the given vertical offset and at the
horizontal offset (surface width minus the width of the rendered
bounding box) divided by two. -/
theorem center_text_offset (tm : TextMeasure) (draw : Canvas) (y : Int) (text : String)
    (fnt : Font) (fill : RGB) (img_w : Int) :
    ∃ x : ℚ, center_text tm draw y text fnt fill img_w =
        { draw with ops := draw.ops ++ [Op.text x y text fnt fill] } ∧
      x = ((img_w : ℚ) - (((tm fnt text).right - (tm fnt text).left : Int) : ℚ)) / 2 := by
  refine ⟨_, rfl, ?_⟩
  push_cast
  ring

/-- C7: for every vertical offset y, canvas width w and margin m, the
rule helper appends exactly one line operation of width one pixel, from
x = m to x = w - m at height y, in the fixed dark color (30, 30, 30). -/
theorem draw_gold_line_spec (draw : Canvas) (y w margin : Int) :
    draw_gold_line draw y w margin =
      { draw with ops := draw.ops ++ [Op.line margin y (w - margin) y (30, 30, 30) 1] } := rfl

/-- C3: for every point size and boldness flag, if loading the system
truetype font at that size and style index fails, the font loader
returns the built-in default font, and the whole run still completes
(the only fallible step, directory creation with exist_ok set, always
succeeds). -/
theorem font_fallback (env : Env) (size : Nat) (bold : Bool) (tm : TextMeasure) (fs : FS)
    (h : env.ttOk size (if bold then 1 else 0) = false) :
    font env size bold = Font.load_default ∧ (run tm env fs).isSome = true := by
  constructor
  · simp only [font]
    rw [h]
    simp
  · simp only [run, makedirs]
    by_cases hd : OUT ∈ fs.dirs <;> simp [hd]

/-- Witness for C3 at a concrete environment in which every font load
fails: the loader returns the default font and the run completes. -/
theorem font_fallback_witness :
    envNone.ttOk 22 (if true then 1 else 0) = false ∧
      (font envNone 22 true = Font.load_default ∧ (run tm0 envNone fs0).isSome = true) :=
  ⟨rfl, font_fallback envNone 22 true tm0 fs0 rfl⟩

/-- C8: for every text string whose rendered bounding-box width exceeds
the surface width, center_text still appends exactly one text operation,
unchanged except that its horizontal offset is negative; nothing is
wrapped, clamped, or rejected. -/
theorem center_text_overflow (tm : TextMeasure) (draw : Canvas) (y : Int) (text : String)
    (fnt : Font) (fill : RGB) (img_w : Int)
    (h : img_w < (tm fnt text).right - (tm fnt text).left) :
    ∃ x : ℚ, center_text tm draw y text fnt fill img_w =
        { draw with ops := draw.ops ++ [Op.text x y text fnt fill] } ∧ x < 0 := by
  refine ⟨_, rfl, ?_⟩
  apply div_neg_of_neg_of_pos _ two_pos
  have hz : img_w - ((tm fnt text).right - (tm fnt text).left) < 0 := by omega
  exact_mod_cast hz

/-- Witness for C8: a 2000-pixel-wide string on a 1080-pixel surface is
drawn at a negative horizontal offset. -/
theorem center_text_overflow_witness :
    (1080 : Int) < (tmWide Font.load_default "YOUR AD HERE").right -
        (tmWide Font.load_default "YOUR AD HERE").left ∧
      ∃ x : ℚ, center_text tmWide (Image.new "RGB" (1080, 90) BG) 20 "YOUR AD HERE"
            Font.load_default GOLD 1080 =
          { Image.new "RGB" (1080, 90) BG with
              ops := (Image.new "RGB" (1080, 90) BG).ops ++
                [Op.text x 20 "YOUR AD HERE" Font.load_default GOLD] } ∧ x < 0 :=
  ⟨by decide,
    center_text_overflow tmWide (Image.new "RGB" (1080, 90) BG) 20 "YOUR AD HERE"
      Font.load_default GOLD 1080 (by decide)⟩

/-- C4 counterexample: the idle block renders four centered text lines,
so its count is neither two nor three as the claim states. -/
theorem idle_text_line_count_not_two_or_three :
    ¬((textOps (idleImg tm0 envNone)).length = 2 ∨
      (textOps (idleImg tm0 envNone)).length = 3) := by decide

/-- C4 (amended): each block creates a solid-background canvas, draws
rules (one for the banner, two each for idle and side), renders centered
text lines (two for the banner, four for the idle block, two for the
side block), saves under its fixed filename, and prints a confirmation
line right after the save. -/
theorem assembly_blocks_spec (tm : TextMeasure) (env : Env) (fs : FS) :
    (bannerImg tm env).bg = BG ∧ (idleImg tm env).bg = BG ∧ (sideImg tm env).bg = BG ∧
    (lineOps (bannerImg tm env)).length = 1 ∧
    (lineOps (idleImg tm env)).length = 2 ∧
    (lineOps (sideImg tm env)).length = 2 ∧
    (textOps (bannerImg tm env)).length = 2 ∧
    (textOps (idleImg tm env)).length = 4 ∧
    (textOps (sideImg tm env)).length = 2 ∧
    (script tm env fs).2 =
      [Event.save bannerPath (bannerImg tm env), Event.print "✅ Banner 1080x90",
       Event.save idlePath (idleImg tm env), Event.print "✅ Idle 1080x240",
       Event.save sidePath (sideImg tm env), Event.print "✅ Side 1080x120",
       Event.print ("\nAll ads saved to " ++ OUT)] :=
  ⟨rfl, rfl, rfl, rfl, rfl, rfl, rfl, rfl, rfl, rfl⟩

/-- C5 counterexample: the standard-output text of a run splits into
five lines, not four: the summary print starts with a newline, so an
empty line precedes the summary line. -/
theorem stdout_has_extra_blank_line :
    outputLines (stdoutText (script tm0 envNone fs0).2) =
      ["✅ Banner 1080x90", "✅ Idle 1080x240", "✅ Side 1080x120", "",
       "All ads saved to " ++ OUT] ∧
    (outputLines (stdoutText (script tm0 envNone fs0).2)).length ≠ 4 := by
  constructor
  · rfl
  · decide

/-- C5 (amended): every run performs exactly four print calls, the three
confirmation prints each directly after the corresponding save event and
then one summary print; since the summary print begins with a newline,
the standard-output text consists of the three confirmation lines, one
empty line and the summary line, and nothing else. -/
theorem stdout_lines_spec (tm : TextMeasure) (env : Env) (fs : FS) :
    (script tm env fs).2 =
      [Event.save bannerPath (bannerImg tm env), Event.print "✅ Banner 1080x90",
       Event.save idlePath (idleImg tm env), Event.print "✅ Idle 1080x240",
       Event.save sidePath (sideImg tm env), Event.print "✅ Side 1080x120",
       Event.print ("\nAll ads saved to " ++ OUT)] ∧
    printedStrings (script tm env fs).2 =
      ["✅ Banner 1080x90", "✅ Idle 1080x240", "✅ Side 1080x120",
       "\nAll ads saved to " ++ OUT] ∧
    outputLines (stdoutText (script tm env fs).2) =
      ["✅ Banner 1080x90", "✅ Idle 1080x240", "✅ Side 1080x120", "",
       "All ads saved to " ++ OUT] :=
  ⟨rfl, rfl, rfl⟩

/-- C6: directory creation at startup covers both cases: when the
output directory is absent it is created, and when it already exists
the call is a no-op that still succeeds; in every case the run
completes, the resulting filesystem contains the output directory, and
the three fixed file names hold the freshly generated images,
overwriting whatever was stored under those names before. -/
theorem makedirs_creates_if_absent_idempotent_overwrite
    (tm : TextMeasure) (env : Env) (fs : FS) :
    (OUT ∉ fs.dirs → makedirs fs OUT true = some { fs with dirs := OUT :: fs.dirs }) ∧
    (OUT ∈ fs.dirs → makedirs fs OUT true = some fs) ∧
    (∃ fs2 ev, run tm env fs = some (fs2, ev) ∧ OUT ∈ fs2.dirs ∧
      getFile fs2 bannerPath = some (bannerImg tm env) ∧
      getFile fs2 idlePath = some (idleImg tm env) ∧
      getFile fs2 sidePath = some (sideImg tm env)) := by
  refine ⟨fun h => by simp [makedirs, h], fun h => by simp [makedirs, h], ?_⟩
  by_cases h : OUT ∈ fs.dirs
  · refine ⟨(script tm env fs).1, (script tm env fs).2, ?_, h, rfl, rfl, rfl⟩
    simp [run, makedirs, h]
  · refine ⟨(script tm env { fs with dirs := OUT :: fs.dirs }).1,
      (script tm env { fs with dirs := OUT :: fs.dirs }).2, ?_,
      List.mem_cons_self _ _, rfl, rfl, rfl⟩
    simp [run, makedirs, h]

/-- Witness for C6 on two concrete filesystems: one where the output
directory is absent, so creation adds it, and one where it already
exists with a stale banner file, so creation is a succeeding no-op and
the stale file is overwritten with the new banner image. -/
theorem makedirs_creates_if_absent_idempotent_overwrite_witness :
    OUT ∉ fs0.dirs ∧
      makedirs fs0 OUT true = some { fs0 with dirs := OUT :: fs0.dirs } ∧
      OUT ∈ fsPre.dirs ∧
      makedirs fsPre OUT true = some fsPre ∧
      getFile (script tm0 envNone fsPre).1 bannerPath = some (bannerImg tm0 envNone) := by
  have h0 : OUT ∉ fs0.dirs := by simp [fs0]
  have hp : OUT ∈ fsPre.dirs := by simp [fsPre]
  exact ⟨h0,
    (makedirs_creates_if_absent_idempotent_overwrite tm0 envNone fs0).1 h0,
    hp,
    (makedirs_creates_if_absent_idempotent_overwrite tm0 envNone fsPre).2.1 hp,
    rfl⟩

/-- Helper: the images a run saves are exactly the three block canvases,
in order. -/
theorem savedImages_script (tm : TextMeasure) (env : Env) (fs : FS) :
    (savedImages (script tm env fs).2).map Prod.snd =
      [bannerImg tm env, idleImg tm env, sideImg tm env] := rfl

/-- C9: every canvas a run saves has width 1080 and background
(10, 10, 10), and every text operation on it is horizontally centered
with respect to the true canvas width. -/
theorem canvas_width_invariant (tm : TextMeasure) (env : Env) (fs : FS) (c : Canvas)
    (hc : c ∈ (savedImages (script tm env fs).2).map Prod.snd) :
    c.width = 1080 ∧ c.bg = (10, 10, 10) ∧
    ∀ op ∈ c.ops, centeredAt tm (c.width : Int) op := by
  rw [savedImages_script] at hc
  simp only [List.mem_cons, List.not_mem_nil, or_false] at hc
  rcases hc with rfl | rfl | rfl <;>
    refine ⟨rfl, rfl, ?_⟩ <;>
    · intro op hop
      simp only [bannerImg, idleImg, sideImg, center_text, draw_gold_line, Image.new,
        List.mem_cons, List.not_mem_nil, or_false, List.nil_append, List.cons_append,
        List.append_nil] at hop
      rcases hop with rfl | rfl | rfl | rfl | rfl | rfl <;>
        simp [centeredAt, bannerImg, idleImg, sideImg, center_text, draw_gold_line, Image.new]

/-- Witness for C9 at the banner canvas of a concrete run. -/
theorem canvas_width_invariant_witness :
    bannerImg tm0 envNone ∈ (savedImages (script tm0 envNone fs0).2).map Prod.snd ∧
      (bannerImg tm0 envNone).width = 1080 := by
  have hm : bannerImg tm0 envNone ∈ (savedImages (script tm0 envNone fs0).2).map Prod.snd := by
    rw [savedImages_script]
    exact List.mem_cons_self _ _
  exact ⟨hm, (canvas_width_invariant tm0 envNone fs0 (bannerImg tm0 envNone) hm).1⟩

/-- Helper: the font loader depends on the environment only through the
availability of the truetype file at the requested size and index. -/
theorem font_congr (e1 e2 : Env) (s : Nat) (b : Bool)
    (h : e1.ttOk s (if b then 1 else 0) = e2.ttOk s (if b then 1 else 0)) :
    font e1 s b = font e2 s b := by
  simp only [font]
  rw [h]

/-- C10: two runs whose environments resolve every font load the script
performs the same way produce identical results: the same filesystem
update from the same starting state, and the same save and print trace
even from different starting states; nothing besides font availability
influences the output. -/
theorem run_deterministic (tm : TextMeasure) (e1 e2 : Env) (fs fs2 : FS)
    (h1 : e1.ttOk 22 1 = e2.ttOk 22 1) (h2 : e1.ttOk 18 0 = e2.ttOk 18 0)
    (h3 : e1.ttOk 36 1 = e2.ttOk 36 1) (h4 : e1.ttOk 22 0 = e2.ttOk 22 0)
    (h5 : e1.ttOk 20 0 = e2.ttOk 20 0) (h6 : e1.ttOk 13 0 = e2.ttOk 13 0)
    (h7 : e1.ttOk 26 1 = e2.ttOk 26 1) :
    run tm e1 fs = run tm e2 fs ∧ (script tm e1 fs).2 = (script tm e2 fs2).2 := by
  have f1 : font e1 22 true = font e2 22 true := font_congr _ _ _ _ h1
  have f2 : font e1 18 false = font e2 18 false := font_congr _ _ _ _ h2
  have f3 : font e1 36 true = font e2 36 true := font_congr _ _ _ _ h3
  have f4 : font e1 22 false = font e2 22 false := font_congr _ _ _ _ h4
  have f5 : font e1 20 false = font e2 20 false := font_congr _ _ _ _ h5
  have f6 : font e1 13 false = font e2 13 false := font_congr _ _ _ _ h6
  have f7 : font e1 26 true = font e2 26 true := font_congr _ _ _ _ h7
  have hs : script tm e1 = script tm e2 := by
    funext fsx
    simp only [script, bannerImg, idleImg, sideImg, f1, f2, f3, f4, f5, f6, f7]
  refine ⟨by simp only [run, hs], ?_⟩
  rw [hs]
  rfl

/-- Witness for C10: two environments that agree on every size the
script uses but differ on size 100 yield identical runs. -/
theorem run_deterministic_witness :
    envA.ttOk 22 1 = envB.ttOk 22 1 ∧ envA.ttOk 100 0 ≠ envB.ttOk 100 0 ∧
      run tm0 envA fs0 = run tm0 envB fs0 :=
  ⟨rfl, by decide,
    (run_deterministic tm0 envA envB fs0 fs0 rfl rfl rfl rfl rfl rfl rfl).1⟩

end GenAds
